import Mathlib

/-!
Shallow embedding of the SMASH scrap-auction workflow engine (src/app.js,
the "DB operations" section).  The whole persisted document is a `Db`
value; every operation is a pure function `Db → … → result × Db` that
returns the updated document, exactly mirroring the JavaScript source:
on an error return the document is the unchanged input, since in the
source all validation precedes all mutation.

Conventions of the embedding:
* JavaScript numbers are modelled as `ℚ`; the one non-real value that
  actually arises in this code, the `NaN` produced by `parseFloat` on a
  non-numeric offer, is modelled by `Option ℚ` with `none` for `NaN`.
* Nondeterministic inputs of the source (`makeId`, `new Date()`) are
  passed in as explicit arguments (`id`, `txId`, `date`), since the
  source only ever stores them.
* A JavaScript string field that the code reads with `x || default` is
  modelled as a plain `String` when `""` and "absent" behave
  identically at every use site, and as `Option String` when the
  distinction matters (e.g. `data.title`); numeric fields read with
  `x || d` are `Option ℚ` (`none` = absent/undefined), with the JS
  falsiness of `0` and of `none` made explicit in `qOr`/`jsOrQ`.
* `Array.prototype.find` is `List.find?`; in-place mutation of the found
  element is `updateFirstBy` (replace the first match, keep the rest).
-/

namespace Smash

/-- Replace the first element satisfying `p` by its image under `f`,
leaving everything else unchanged: the pure counterpart of the source's
`db.xs.find(...)` followed by in-place mutation of the found object. -/
def updateFirstBy {α : Type} (p : α → Bool) (f : α → α) : List α → List α
  | [] => []
  | a :: r =>
    match p a with
    | true => f a :: r
    | false => a :: updateFirstBy p f r

/-- A JavaScript value appearing as an offer amount: a number or a string
(the source feeds both to `parseFloat`). -/
inductive JsVal : Type where
  | num (q : ℚ)
  | str (s : String)
deriving DecidableEq

/-- JS truthiness of a number-or-undefined-or-NaN value: `0`, `NaN` and
`undefined` are falsy. -/
def truthyQ : Option ℚ → Bool
  | some q => !(q == 0)
  | none => false

/-- JS `a || b` on numeric values (`none` = undefined/NaN). -/
def jsOrQ (a b : Option ℚ) : Option ℚ :=
  if truthyQ a then a else b

/-- JS subtraction where an undefined operand yields `NaN`. -/
def jsSub : Option ℚ → Option ℚ → Option ℚ
  | some a, some b => some (a - b)
  | _, _ => none

/-- JS `v || d` coerced to a definite number: the value if truthy,
otherwise the default. -/
def qOr (v : Option ℚ) (d : ℚ) : ℚ :=
  match v with
  | some q => if q = 0 then d else q
  | none => d

/-- JS `s || d` for strings (the empty string is falsy). -/
def strOr (v : Option String) (d : String) : String :=
  match v with
  | some s => if s = "" then d else s
  | none => d

/-- Numeric value of a list of decimal digit characters. -/
def digitsVal (cs : List Char) : Nat :=
  cs.foldl (fun n c => n * 10 + (c.toNat - 48)) 0

/-- Model of the JS builtin `parseFloat` on the strings this program
feeds it: an optional sign followed by decimal digits with an optional
fractional part; a string with no such numeric head parses to `NaN`,
modelled as `none`. -/
def parseFloatQ (s : String) : Option ℚ :=
  let cs := s.data.dropWhile (fun c => c = ' ')
  let signRest : ℚ × List Char :=
    match cs with
    | '-' :: r => (-1, r)
    | '+' :: r => (1, r)
    | r => (1, r)
  let intPart := signRest.2.takeWhile Char.isDigit
  let afterInt := signRest.2.drop intPart.length
  let fracPart :=
    match afterInt with
    | '.' :: r => r.takeWhile Char.isDigit
    | _ => []
  if intPart = [] ∧ fracPart = [] then none
  else
    some (signRest.1 *
      ((digitsVal intPart : ℚ) + (digitsVal fracPart : ℚ) / ((10 : ℚ) ^ fracPart.length)))

/-- Model of JS `toLowerCase` on the ASCII material names this program
uses. -/
def lowerStr (s : String) : String :=
  String.mk (s.data.map Char.toLower)

/-- A user record (`db.users` element in the source). -/
structure User : Type where
  id : String
  username : String
  password : String
  name : String
  role : String
  parentId : String
  trustLevel : ℚ
deriving DecidableEq

/-- A part inside a box (`box.parts` element). -/
structure Part : Type where
  id : String
  name : String
  photos : List String
  fill : ℚ
  vin : String
  year : String
  make : String
  model : String
  trim : String
  partNumber : String
  notes : String
deriving DecidableEq

/-- A box (`db.boxes` element). -/
structure Box : Type where
  id : String
  sellerId : String
  packageName : String
  material : String
  saleUnit : String
  count : ℚ
  gross : ℚ
  tare : ℚ
  net : ℚ
  photos : List String
  status : String
  parts : List Part
deriving DecidableEq

/-- An auction (`db.auctions` element). -/
structure Auction : Type where
  id : String
  sellerId : String
  title : String
  shipping : List String
  forkliftOnSite : Bool
  paymentTerms : List String
  boxIds : List String
  status : String
  bids : List String
deriving DecidableEq

/-- A per-part line of a bid; `amount` is `none` when `parseFloat`
returned `NaN` for that offer. -/
structure LineOffer : Type where
  partId : String
  amount : Option ℚ
deriving DecidableEq

/-- A bid (`db.bids` element). -/
structure Bid : Type where
  id : String
  auctionId : String
  buyerId : String
  lineOffers : List LineOffer
  total : ℚ
  status : String
  sellerApproved : Bool
  adminApproved : Bool
deriving DecidableEq

/-- A settlement record (`db.ledger` element). -/
structure LedgerEntry : Type where
  id : String
  sellerId : String
  buyerId : String
  auctionId : String
  total : ℚ
  date : String
deriving DecidableEq

/-- The whole persisted document. -/
structure Db : Type where
  users : List User
  boxes : List Box
  auctions : List Auction
  bids : List Bid
  ledger : List LedgerEntry
deriving DecidableEq

instance exceptDecEq {ε α : Type} [DecidableEq ε] [DecidableEq α] : DecidableEq (Except ε α) :=
  fun a b =>
    match a, b with
    | .ok x, .ok y =>
      if h : x = y then .isTrue (by rw [h]) else .isFalse (by simp [h])
    | .error e, .error e2 =>
      if h : e = e2 then .isTrue (by rw [h]) else .isFalse (by simp [h])
    | .ok _, .error _ => .isFalse (by simp)
    | .error _, .ok _ => .isFalse (by simp)

/-- `db.boxes.find(b => b.id === boxId)`. -/
def findBox (db : Db) (boxId : String) : Option Box :=
  db.boxes.find? (fun b => b.id == boxId)

/-- `db.auctions.find(a => a.id === auctionId)`. -/
def findAuction (db : Db) (auctionId : String) : Option Auction :=
  db.auctions.find? (fun a => a.id == auctionId)

/-- `db.bids.find(b => b.id === bidId)`. -/
def findBid (db : Db) (bidId : String) : Option Bid :=
  db.bids.find? (fun b => b.id == bidId)

/-- `createUser` from the source (the fresh id is passed in for
`makeId('USR')`; the source returns the just-pushed user, re-found by
its fresh id). -/
def createUser (db : Db) (id username password name role parentId : String) :
    Except String User × Db :=
  if (db.users.find? (fun u => u.username == username)).isSome then
    (.error "Username already exists", db)
  else
    let u : User := { id, username, password, name, role, parentId, trustLevel := 0 }
    (.ok u, { db with users := db.users ++ [u] })

/-- Input fields of `createBox`; `none` models an absent (undefined)
field. -/
structure BoxData : Type where
  packageName : Option String
  material : Option String
  saleUnit : Option String
  count : Option ℚ
  gross : Option ℚ
  tare : Option ℚ
  net : Option ℚ
  photos : Option (List String)
deriving DecidableEq

/-- `createBox` from the source: `net = data.net || (data.gross -
data.tare)`, every stored numeric field defaulted with `|| 0`, status
`WIP`, empty part list. -/
def createBox (db : Db) (id sellerId : String) (data : BoxData) : Box × Db :=
  let net := jsOrQ data.net (jsSub data.gross data.tare)
  let box : Box :=
    { id, sellerId,
      packageName := strOr data.packageName "",
      material := strOr data.material "",
      saleUnit := strOr data.saleUnit "LB",
      count := qOr data.count 0,
      gross := qOr data.gross 0,
      tare := qOr data.tare 0,
      net := qOr net 0,
      photos := data.photos.getD [],
      status := "WIP",
      parts := [] }
  (box, { db with boxes := db.boxes ++ [box] })

/-- Input fields of `addPart`.  String fields and `fill` are plain
(`""`/`0` behave exactly like an absent field at every use site of the
source). -/
structure PartData : Type where
  name : String
  photos : List String
  fill : ℚ
  vin : String
  year : String
  make : String
  model : String
  trim : String
  partNumber : String
  notes : String
deriving DecidableEq

/-- `addPart` from the source: box must exist and be `WIP` or
`FINISHED`; a truthy part name must match the box material
case-insensitively when the material is already set, and sets it when
it is not; then the new part is appended. -/
def addPart (db : Db) (boxId partId : String) (part : PartData) :
    Except String Part × Db :=
  match findBox db boxId with
  | none => (.error "Box not found", db)
  | some box =>
    if box.status ≠ "WIP" ∧ box.status ≠ "FINISHED" then
      (.error "Cannot modify box in auction or sold", db)
    else if box.material ≠ "" ∧ part.name ≠ "" ∧ lowerStr part.name ≠ lowerStr box.material then
      (.error ("Box is locked to material \"" ++ box.material ++ "\""), db)
    else
      let box1 := if box.material = "" ∧ part.name ≠ "" then { box with material := part.name } else box
      let newPart : Part :=
        { id := partId, name := part.name, photos := part.photos, fill := part.fill,
          vin := part.vin, year := part.year, make := part.make, model := part.model,
          trim := part.trim, partNumber := part.partNumber, notes := part.notes }
      let box2 := { box1 with parts := box1.parts ++ [newPart] }
      (.ok newPart,
        { db with boxes := updateFirstBy (fun b => b.id == boxId) (fun _ => box2) db.boxes })

/-- `finalizeBox` from the source: needs an existing box, at least one
part, and status `WIP`; then status becomes `FINISHED`. -/
def finalizeBox (db : Db) (boxId : String) : Except String Box × Db :=
  match findBox db boxId with
  | none => (.error "Box not found", db)
  | some box =>
    if box.parts.length = 0 then (.error "Add at least one part before finalising", db)
    else if box.status ≠ "WIP" then (.error "Box already finalised or in auction", db)
    else
      let box2 := { box with status := "FINISHED" }
      (.ok box2,
        { db with boxes := updateFirstBy (fun b => b.id == boxId) (fun _ => box2) db.boxes })

/-- The list part of `setBoxStatus`: set the status of the first box
with the given id, if any. -/
def setBoxStatusList (bs : List Box) (boxId status : String) : List Box :=
  updateFirstBy (fun b => b.id == boxId) (fun b => { b with status := status }) bs

/-- `setBoxStatus` from the source (internal helper; no error, no-op on
a missing box). -/
def setBoxStatus (db : Db) (boxId status : String) : Db :=
  { db with boxes := setBoxStatusList db.boxes boxId status }

/-- Input fields of `createAuction`. -/
structure AuctionData : Type where
  title : Option String
  shipping : Option (List String)
  forkliftOnSite : Bool
  paymentTerms : Option (List String)
  boxIds : List String
deriving DecidableEq

/-- The validation loop of `createAuction`: the first listed box that is
missing or not `FINISHED` produces the error message the source
returns. -/
def validateBoxes (db : Db) : List String → Option String
  | [] => none
  | bxId :: rest =>
    match findBox db bxId with
    | none => some ("Box " ++ bxId ++ " not found")
    | some bx =>
      if bx.status ≠ "FINISHED" then some ("Box " ++ bxId ++ " not ready for auction")
      else validateBoxes db rest

/-- `createAuction` from the source: all listed boxes are validated
first (all-or-nothing), then the auction is appended in status
`IN_AUCTION` and every listed box is flipped to `IN_AUCTION`. -/
def createAuction (db : Db) (id sellerId : String) (data : AuctionData) :
    Except String Auction × Db :=
  match validateBoxes db data.boxIds with
  | some e => (.error e, db)
  | none =>
    let auction : Auction :=
      { id, sellerId,
        title := strOr data.title ("Auction " ++ String.mk (id.data.drop (id.data.length - 5))),
        shipping := data.shipping.getD [],
        forkliftOnSite := data.forkliftOnSite,
        paymentTerms := data.paymentTerms.getD [],
        boxIds := data.boxIds,
        status := "IN_AUCTION",
        bids := [] }
    let db1 : Db := { db with auctions := db.auctions ++ [auction] }
    let db2 := auction.boxIds.foldl (fun d bx => setBoxStatus d bx "IN_AUCTION") db1
    (.ok auction, db2)

/-- `parseFloat(offers[pid] || 0)` for one offer entry: a number passes
through, the empty string is falsy and becomes `parseFloat(0) = 0`, any
other string is parsed (`none` = `NaN`). -/
def offerAmount : JsVal → Option ℚ
  | .num q => some q
  | .str s => if s = "" then some 0 else parseFloatQ s

/-- `submitBid` from the source: one line offer per entry of the offers
map, the total counts a `NaN` amount as `0`, a total `≤ 0` is rejected,
otherwise the bid is appended in status `SUBMITTED` and its id pushed
onto the auction's bid list. -/
def submitBid (db : Db) (id buyerId auctionId : String)
    (offers : List (String × JsVal)) : Except String Bid × Db :=
  match findAuction db auctionId with
  | none => (.error "Auction not found", db)
  | some _auction =>
    let lineOffers := offers.map (fun o => ({ partId := o.1, amount := offerAmount o.2 } : LineOffer))
    let total := lineOffers.foldl (fun sum o => sum + o.amount.getD 0) 0
    if total ≤ 0 then (.error "Enter at least one offer amount", db)
    else
      let bid : Bid :=
        { id, auctionId, buyerId, lineOffers, total,
          status := "SUBMITTED", sellerApproved := false, adminApproved := false }
      (.ok bid,
        { db with
            bids := db.bids ++ [bid],
            auctions := updateFirstBy (fun a => a.id == auctionId)
              (fun a => { a with bids := a.bids ++ [id] }) db.auctions })

/-- `setBidSellerStatus` from the source: no precondition on the current
status; accept sets status `SELLER_ACCEPTED` and the flag, reject sets
status `SELLER_REJECTED` and touches nothing else. -/
def setBidSellerStatus (db : Db) (bidId : String) (approve : Bool) :
    Except String Bid × Db :=
  match findBid db bidId with
  | none => (.error "Bid not found", db)
  | some bid =>
    let bid2 :=
      if approve then { bid with status := "SELLER_ACCEPTED", sellerApproved := true }
      else { bid with status := "SELLER_REJECTED" }
    (.ok bid2,
      { db with bids := updateFirstBy (fun b => b.id == bidId) (fun _ => bid2) db.bids })

/-- `setBidAdminStatus` from the source: requires status exactly
`SELLER_ACCEPTED` and a resolvable auction; approval cascades to the
auction, its boxes and the ledger, rejection only flips the status.
`txId` stands for `makeId('TX')` and `date` for the timestamp. -/
def setBidAdminStatus (db : Db) (txId date bidId : String) (approve : Bool) :
    Except String Bid × Db :=
  match findBid db bidId with
  | none => (.error "Bid not found", db)
  | some bid =>
    if bid.status ≠ "SELLER_ACCEPTED" then (.error "Bid must be seller accepted first", db)
    else
      match findAuction db bid.auctionId with
      | none => (.error "Auction not found", db)
      | some auction =>
        if approve then
          let bid2 := { bid with status := "ADMIN_APPROVED", adminApproved := true }
          let db1 : Db :=
            { db with
                bids := updateFirstBy (fun b => b.id == bidId) (fun _ => bid2) db.bids,
                auctions := updateFirstBy (fun a => a.id == bid.auctionId)
                  (fun a => { a with status := "SOLD" }) db.auctions }
          let db2 := auction.boxIds.foldl (fun d bx => setBoxStatus d bx "SOLD") db1
          let entry : LedgerEntry :=
            { id := txId, sellerId := auction.sellerId, buyerId := bid.buyerId,
              auctionId := auction.id, total := bid.total, date := date }
          (.ok bid2, { db2 with ledger := db2.ledger ++ [entry] })
        else
          let bid2 := { bid with status := "ADMIN_REJECTED" }
          (.ok bid2,
            { db with bids := updateFirstBy (fun b => b.id == bidId) (fun _ => bid2) db.bids })

/-- One workflow operation, with the source's nondeterministic inputs
(fresh ids, timestamps) carried as data. -/
inductive Op : Type where
  | user (id username password name role parentId : String)
  | box (id sellerId : String) (data : BoxData)
  | part (boxId partId : String) (data : PartData)
  | finalize (boxId : String)
  | auction (id sellerId : String) (data : AuctionData)
  | bid (id buyerId auctionId : String) (offers : List (String × JsVal))
  | sellerStatus (bidId : String) (approve : Bool)
  | adminStatus (txId date bidId : String) (approve : Bool)
deriving DecidableEq

/-- The document after one workflow operation (an operation that fails
validation leaves the document unchanged, as in the source). -/
def step (db : Db) : Op → Db
  | .user id u p n r pa => (createUser db id u p n r pa).2
  | .box id s d => (createBox db id s d).2
  | .part b p d => (addPart db b p d).2
  | .finalize b => (finalizeBox db b).2
  | .auction id s d => (createAuction db id s d).2
  | .bid id b a o => (submitBid db id b a o).2
  | .sellerStatus b ap => (setBidSellerStatus db b ap).2
  | .adminStatus t d b ap => (setBidAdminStatus db t d b ap).2

/-- The document after a sequence of workflow operations. -/
def run (db : Db) (ops : List Op) : Db :=
  ops.foldl step db

/-- No bid with this id is currently `SELLER_ACCEPTED` (list form). -/
def bidNotSAList (bids : List Bid) (bid0 : String) : Bool :=
  bids.all (fun b => !(b.id == bid0 && b.status == "SELLER_ACCEPTED"))

/-- No bid with this id is currently `SELLER_ACCEPTED`: exactly the
state in which `setBidAdminStatus` on it is guaranteed to fail. -/
def bidNotSA (db : Db) (bid0 : String) : Bool :=
  bidNotSAList db.bids bid0

/-- Does this operation re-accept the given bid
(`setBidSellerStatus(bid0, true)`)? -/
def reaccepts (op : Op) (bid0 : String) : Bool :=
  match op with
  | .sellerStatus b ap => b == bid0 && ap
  | _ => false

/-- Sum of a list of JS numbers where `none` is `NaN`: any `NaN` term
makes the whole sum `NaN`.  This is the "sum of the amount fields of
the stored line items" in JS arithmetic. -/
def nanSum : List (Option ℚ) → Option ℚ
  | [] => some 0
  | a :: r =>
    match a, nanSum r with
    | some x, some y => some (x + y)
    | _, _ => none

/-- Did the operation succeed? -/
def resOk {α : Type} : Except String α → Bool
  | .ok _ => true
  | .error _ => false

/-- Every box with this id that the lookup can return currently has the
given status. -/
def boxesStatusAt (bs : List Box) (bxId st : String) : Prop :=
  ∀ bx, bs.find? (fun b => b.id == bxId) = some bx → bx.status = st

/-! Concrete fixture documents for counterexamples and witnesses. -/

/-- A bid already accepted by the seller, its auction and box: the state
from which an admin approval succeeds. -/
def cBid1 : Bid :=
  { id := "B1", auctionId := "A1", buyerId := "U1", lineOffers := [],
    total := 50, status := "SELLER_ACCEPTED", sellerApproved := true, adminApproved := false }

def cBox1 : Box :=
  { id := "BX1", sellerId := "S1", packageName := "", material := "Copper #1",
    saleUnit := "LB", count := 0, gross := 100, tare := 10, net := 90, photos := [],
    status := "IN_AUCTION",
    parts := [{ id := "P1", name := "Copper #1", photos := [], fill := 0, vin := "",
                year := "", make := "", model := "", trim := "", partNumber := "",
                notes := "" }] }

def cAuc1 : Auction :=
  { id := "A1", sellerId := "S1", title := "Auction A1", shipping := [],
    forkliftOnSite := false, paymentTerms := [], boxIds := ["BX1"],
    status := "IN_AUCTION", bids := ["B1"] }

def cDb1 : Db :=
  { users := [], boxes := [cBox1], auctions := [cAuc1], bids := [cBid1], ledger := [] }

/-- The document after the first admin approval of `B1`. -/
def cDb1approved : Db := step cDb1 (.adminStatus "TX1" "2024-01-01" "B1" true)

/-- ... after the seller re-accepts the already approved bid. -/
def cDb1reaccepted : Db := step cDb1approved (.sellerStatus "B1" true)

/-- ... after a second admin approval of the same bid. -/
def cDb1twice : Db := step cDb1reaccepted (.adminStatus "TX2" "2024-01-02" "B1" true)

/-- A zero-part box that is already `FINISHED` (status not `WIP`). -/
def cBox5 : Box :=
  { id := "B5", sellerId := "S1", packageName := "", material := "Stainless",
    saleUnit := "LB", count := 0, gross := 0, tare := 0, net := 0, photos := [],
    status := "FINISHED", parts := [] }

def cDb5 : Db := { users := [], boxes := [cBox5], auctions := [], bids := [], ledger := [] }

/-- A `WIP` box with one part, ready to finalize. -/
def wBox5 : Box :=
  { id := "W5", sellerId := "S1", packageName := "", material := "Stainless",
    saleUnit := "LB", count := 0, gross := 0, tare := 0, net := 0, photos := [],
    status := "WIP",
    parts := [{ id := "P5", name := "Stainless", photos := [], fill := 0, vin := "",
                year := "", make := "", model := "", trim := "", partNumber := "",
                notes := "" }] }

def wDb5 : Db := { users := [], boxes := [wBox5], auctions := [], bids := [], ledger := [] }

/-- A `WIP` box locked to material `Copper #1`. -/
def cBox6 : Box :=
  { id := "B6", sellerId := "S1", packageName := "", material := "Copper #1",
    saleUnit := "LB", count := 0, gross := 0, tare := 0, net := 0, photos := [],
    status := "WIP", parts := [] }

def cDb6 : Db := { users := [], boxes := [cBox6], auctions := [], bids := [], ledger := [] }

/-- A submitted part whose name is empty (falsy in the source). -/
def cPd6 : PartData :=
  { name := "", photos := [], fill := 0, vin := "", year := "", make := "", model := "",
    trim := "", partNumber := "", notes := "" }

/-- A submitted part whose name really mismatches the box material. -/
def wPd6 : PartData :=
  { name := "Stainless", photos := [], fill := 0, vin := "", year := "", make := "",
    model := "", trim := "", partNumber := "", notes := "" }

/-- An open auction with no bids, for bid-submission fixtures. -/
def cAuc7 : Auction :=
  { id := "A7", sellerId := "S1", title := "Auction A7", shipping := [],
    forkliftOnSite := false, paymentTerms := [], boxIds := [], status := "IN_AUCTION",
    bids := [] }

def cDb7 : Db := { users := [], boxes := [], auctions := [cAuc7], bids := [], ledger := [] }

/-- The offers map of the spec's test: `{P1: 10, P2: "abc"}`. -/
def cOffers7 : List (String × JsVal) := [("P1", .num 10), ("P2", .str "abc")]

/-- The bid that `submitBid` builds from `cOffers7`: the `"abc"` line is
stored with amount `NaN` (`none`) while the total counts it as `0`. -/
def cBid8 : Bid :=
  { id := "B8", auctionId := "A7", buyerId := "U8",
    lineOffers := [{ partId := "P1", amount := some 10 }, { partId := "P2", amount := none }],
    total := 10, status := "SUBMITTED", sellerApproved := false, adminApproved := false }

/-- A freshly submitted bid, for the seller-status fixtures. -/
def cBid9 : Bid :=
  { id := "B9", auctionId := "A7", buyerId := "U9", lineOffers := [], total := 25,
    status := "SUBMITTED", sellerApproved := false, adminApproved := false }

def cDb9 : Db := { users := [], boxes := [], auctions := [cAuc7], bids := [cBid9], ledger := [] }

/-- The document after the seller accepts `B9` (flag now `true`). -/
def cDb9accepted : Db := (setBidSellerStatus cDb9 "B9" true).2

/-- `createBox` input that supplies `net = 0` alongside gross and tare. -/
def cData10 : BoxData :=
  { packageName := none, material := none, saleUnit := none, count := none,
    gross := some 100, tare := some 10, net := some 0, photos := none }

def cDb10 : Db := { users := [], boxes := [], auctions := [], bids := [], ledger := [] }

/-- `createBox` input that supplies a nonzero net. -/
def wData10 : BoxData :=
  { packageName := none, material := none, saleUnit := none, count := none,
    gross := some 100, tare := some 10, net := some 42, photos := none }

/-- Two `FINISHED` boxes for the auction-creation witness. -/
def wBox4a : Box :=
  { id := "B1", sellerId := "S1", packageName := "", material := "HMS 1",
    saleUnit := "LB", count := 0, gross := 0, tare := 0, net := 0, photos := [],
    status := "FINISHED",
    parts := [{ id := "P4", name := "HMS 1", photos := [], fill := 0, vin := "",
                year := "", make := "", model := "", trim := "", partNumber := "",
                notes := "" }] }

def wBox4b : Box := { wBox4a with id := "B2" }

def wDb4 : Db := { users := [], boxes := [wBox4a, wBox4b], auctions := [], bids := [], ledger := [] }

def wData4 : AuctionData :=
  { title := some "Lot", shipping := none, forkliftOnSite := false, paymentTerms := none,
    boxIds := ["B1", "B2"] }

/-! General lemmas about the list primitives of the embedding. -/

theorem find?_updateFirstBy_self {α : Type} (p : α → Bool) (f : α → α) (l : List α) (a : α)
    (h : l.find? p = some a) (hf : p (f a) = true) :
    (updateFirstBy p f l).find? p = some (f a) := by
  induction l with
  | nil => simp [List.find?] at h
  | cons b r ih =>
    cases hpb : p b with
    | true =>
      simp [List.find?, hpb] at h
      subst h
      simp [updateFirstBy, hpb, List.find?, hf]
    | false =>
      simp [List.find?, hpb] at h
      simp [updateFirstBy, hpb, List.find?, ih h]

theorem find?_updateFirstBy_other {α : Type} (p q : α → Bool) (f : α → α) (l : List α)
    (h : ∀ a, p a = true → q a = false ∧ q (f a) = false) :
    (updateFirstBy p f l).find? q = l.find? q := by
  induction l with
  | nil => rfl
  | cons b r ih =>
    cases hpb : p b with
    | true =>
      obtain ⟨h1, h2⟩ := h b hpb
      simp [updateFirstBy, hpb, List.find?, h1, h2]
    | false =>
      cases hqb : q b with
      | true => simp [updateFirstBy, hpb, List.find?, hqb]
      | false => simp [updateFirstBy, hpb, List.find?, hqb, ih]

theorem all_updateFirstBy {α : Type} (q p : α → Bool) (f : α → α) (l : List α)
    (h : l.all q = true) (hf : ∀ a, p a = true → q a = true → q (f a) = true) :
    (updateFirstBy p f l).all q = true := by
  induction l with
  | nil => rfl
  | cons b r ih =>
    rw [List.all_cons, Bool.and_eq_true] at h
    cases hpb : p b with
    | true =>
      simp only [updateFirstBy, hpb, List.all_cons, Bool.and_eq_true]
      exact ⟨hf b hpb h.1, h.2⟩
    | false =>
      simp only [updateFirstBy, hpb, List.all_cons, Bool.and_eq_true]
      exact ⟨h.1, ih h.2⟩

theorem findBid_id (db : Db) (bidId : String) (b : Bid) (h : findBid db bidId = some b) :
    b.id = bidId := by
  have := List.find?_some h
  simpa using this

theorem findBox_id (db : Db) (boxId : String) (b : Box) (h : findBox db boxId = some b) :
    b.id = boxId := by
  have := List.find?_some h
  simpa using this

theorem findAuction_id (db : Db) (auctionId : String) (a : Auction)
    (h : findAuction db auctionId = some a) : a.id = auctionId := by
  have := List.find?_some h
  simpa using this

/-! Lemmas about the box-status cascade. -/

theorem statusAt_set_self (bs : List Box) (bxId st : String) :
    boxesStatusAt (setBoxStatusList bs bxId st) bxId st := by
  induction bs with
  | nil => intro bx h; simp [setBoxStatusList, updateFirstBy, List.find?] at h
  | cons b r ih =>
    intro bx h
    cases hpb : (b.id == bxId) with
    | true =>
      simp [setBoxStatusList, updateFirstBy, hpb, List.find?] at h
      rw [← h]
    | false =>
      simp [setBoxStatusList, updateFirstBy, hpb, List.find?] at h
      exact ih bx h

theorem statusAt_set_keep (bs : List Box) (bxId y st : String)
    (h : boxesStatusAt bs bxId st) : boxesStatusAt (setBoxStatusList bs y st) bxId st := by
  induction bs with
  | nil => intro bx hx; simp [setBoxStatusList, updateFirstBy, List.find?] at hx
  | cons b r ih =>
    intro bx hx
    cases hpy : (b.id == y) with
    | true =>
      cases hqb : (b.id == bxId) with
      | true =>
        simp [setBoxStatusList, updateFirstBy, hpy, List.find?, hqb] at hx
        rw [← hx]
      | false =>
        simp [setBoxStatusList, updateFirstBy, hpy, List.find?, hqb] at hx
        exact h bx (by simpa [List.find?, hqb] using hx)
    | false =>
      cases hqb : (b.id == bxId) with
      | true =>
        simp [setBoxStatusList, updateFirstBy, hpy, List.find?, hqb] at hx
        exact hx ▸ h b (by simp [List.find?, hqb])
      | false =>
        simp [setBoxStatusList, updateFirstBy, hpy, List.find?, hqb] at hx
        exact ih (fun bx2 hx2 => h bx2 (by simpa [List.find?, hqb] using hx2)) bx hx

theorem statusAt_foldl_keep (l : List String) (bs : List Box) (bxId st : String)
    (h : boxesStatusAt bs bxId st) :
    boxesStatusAt (l.foldl (fun b2 y => setBoxStatusList b2 y st) bs) bxId st := by
  induction l generalizing bs with
  | nil => exact h
  | cons y r ih => exact ih _ (statusAt_set_keep bs bxId y st h)

theorem statusAt_foldl_mem (l : List String) (bxId st : String) :
    ∀ bs : List Box, bxId ∈ l →
      boxesStatusAt (l.foldl (fun b2 y => setBoxStatusList b2 y st) bs) bxId st := by
  induction l with
  | nil => intro bs hmem; cases hmem
  | cons y r ih =>
    intro bs hmem
    rcases List.mem_cons.mp hmem with h1 | h2
    · subst h1
      exact statusAt_foldl_keep r _ bxId st (statusAt_set_self bs bxId st)
    · exact ih _ h2

theorem foldl_setBoxStatus_eq (l : List String) (st : String) (d : Db) :
    l.foldl (fun d2 bx => setBoxStatus d2 bx st) d =
      { d with boxes := l.foldl (fun bs bx => setBoxStatusList bs bx st) d.boxes } := by
  induction l generalizing d with
  | nil => rfl
  | cons y r ih =>
    rw [List.foldl_cons, List.foldl_cons, ih]
    rfl

/-! The admin-approval cascade in explicit form. -/

theorem setBidAdminStatus_approve_eq (db : Db) (tx dt bidId : String) (bid : Bid)
    (auction : Auction)
    (hb : findBid db bidId = some bid) (hs : bid.status = "SELLER_ACCEPTED")
    (ha : findAuction db bid.auctionId = some auction) :
    setBidAdminStatus db tx dt bidId true =
      (.ok { bid with status := "ADMIN_APPROVED", adminApproved := true },
       { db with
           bids := updateFirstBy (fun b => b.id == bidId)
             (fun _ => { bid with status := "ADMIN_APPROVED", adminApproved := true }) db.bids,
           auctions := updateFirstBy (fun a => a.id == bid.auctionId)
             (fun a => { a with status := "SOLD" }) db.auctions,
           boxes := auction.boxIds.foldl (fun bs bx => setBoxStatusList bs bx "SOLD") db.boxes,
           ledger := db.ledger ++
             [{ id := tx, sellerId := auction.sellerId, buyerId := bid.buyerId,
                auctionId := auction.id, total := bid.total, date := dt }] }) := by
  simp [setBidAdminStatus, hb, hs, ha, foldl_setBoxStatus_eq]

theorem approve_bids_lookup (db : Db) (tx dt bidId : String) (bid : Bid) (auction : Auction)
    (hb : findBid db bidId = some bid) (hs : bid.status = "SELLER_ACCEPTED")
    (ha : findAuction db bid.auctionId = some auction) :
    findBid (setBidAdminStatus db tx dt bidId true).2 bidId =
      some { bid with status := "ADMIN_APPROVED", adminApproved := true } := by
  rw [setBidAdminStatus_approve_eq db tx dt bidId bid auction hb hs ha]
  exact find?_updateFirstBy_self _ _ _ bid hb (by simp [findBid_id db bidId bid hb])

theorem notSA_admin_error (db : Db) (tx dt bidId : String) (ap : Bool) (bid : Bid)
    (hb : findBid db bidId = some bid) (hs : bid.status ≠ "SELLER_ACCEPTED") :
    setBidAdminStatus db tx dt bidId ap = (.error "Bid must be seller accepted first", db) := by
  simp [setBidAdminStatus, hb, hs]

/-- Claim C1: for every bid whose status is exactly `SELLER_ACCEPTED` and
whose auction id resolves, `setBidAdminStatus(bidId, true)` succeeds; in
the resulting document the bid is `ADMIN_APPROVED` with its
admin-approved flag true, the auction is `SOLD`, every box whose id
appears in the auction's box list (and resolves) is `SOLD`, and exactly
one new ledger entry is appended, recording the auction's seller id, the
bid's buyer id, the auction id and a total equal to the bid's total. -/
theorem admin_approval_settles (db : Db) (tx dt bidId : String) (bid : Bid) (auction : Auction)
    (hb : findBid db bidId = some bid) (hs : bid.status = "SELLER_ACCEPTED")
    (ha : findAuction db bid.auctionId = some auction) :
    (setBidAdminStatus db tx dt bidId true).1 =
        .ok { bid with status := "ADMIN_APPROVED", adminApproved := true } ∧
    findBid (setBidAdminStatus db tx dt bidId true).2 bidId =
        some { bid with status := "ADMIN_APPROVED", adminApproved := true } ∧
    findAuction (setBidAdminStatus db tx dt bidId true).2 bid.auctionId =
        some { auction with status := "SOLD" } ∧
    (∀ bxId, bxId ∈ auction.boxIds → ∀ bx,
        findBox (setBidAdminStatus db tx dt bidId true).2 bxId = some bx →
        bx.status = "SOLD") ∧
    (setBidAdminStatus db tx dt bidId true).2.ledger =
      db.ledger ++
        [{ id := tx, sellerId := auction.sellerId, buyerId := bid.buyerId,
           auctionId := auction.id, total := bid.total, date := dt }] := by
  rw [setBidAdminStatus_approve_eq db tx dt bidId bid auction hb hs ha]
  refine ⟨rfl, ?_, ?_, ?_, rfl⟩
  · exact find?_updateFirstBy_self _ _ _ bid hb (by simp [findBid_id db bidId bid hb])
  · exact find?_updateFirstBy_self _ _ _ auction ha (by simp [findAuction_id db _ auction ha])
  · intro bxId hmem bx hbx
    exact statusAt_foldl_mem auction.boxIds bxId "SOLD" db.boxes hmem bx hbx

/-- Witness for C1: the concrete seller-accepted bid `B1` of `cDb1` is
admin-approved and exactly one ledger entry is appended. -/
theorem admin_approval_settles_witness :
    findBid cDb1 "B1" = some cBid1 ∧ cBid1.status = "SELLER_ACCEPTED" ∧
    findAuction cDb1 cBid1.auctionId = some cAuc1 ∧
    (setBidAdminStatus cDb1 "TX1" "2024-01-01" "B1" true).2.ledger =
      cDb1.ledger ++
        [{ id := "TX1", sellerId := cAuc1.sellerId, buyerId := cBid1.buyerId,
           auctionId := cAuc1.id, total := cBid1.total, date := "2024-01-01" }] :=
  ⟨rfl, rfl, rfl,
    (admin_approval_settles cDb1 "TX1" "2024-01-01" "B1" cBid1 cAuc1 rfl rfl rfl).2.2.2.2⟩

/-- Claim C2: `setBidAdminStatus` on any existing bid whose status is not
exactly `SELLER_ACCEPTED` fails with the precondition error and leaves
the document unchanged; in particular a second call immediately after a
successful approval fails that way and leaves the (already extended)
document — hence also its ledger — unchanged. -/
theorem admin_status_precondition :
    (∀ (db : Db) (tx dt bidId : String) (ap : Bool) (bid : Bid),
        findBid db bidId = some bid → bid.status ≠ "SELLER_ACCEPTED" →
        setBidAdminStatus db tx dt bidId ap =
          (.error "Bid must be seller accepted first", db)) ∧
    (∀ (db : Db) (t1 d1 t2 d2 bidId : String) (bid : Bid) (auction : Auction),
        findBid db bidId = some bid → bid.status = "SELLER_ACCEPTED" →
        findAuction db bid.auctionId = some auction →
        setBidAdminStatus (setBidAdminStatus db t1 d1 bidId true).2 t2 d2 bidId true =
          (.error "Bid must be seller accepted first",
           (setBidAdminStatus db t1 d1 bidId true).2)) := by
  constructor
  · exact fun db tx dt bidId ap bid hb hs => notSA_admin_error db tx dt bidId ap bid hb hs
  · intro db t1 d1 t2 d2 bidId bid auction hb hs ha
    exact notSA_admin_error _ t2 d2 bidId true _
      (approve_bids_lookup db t1 d1 bidId bid auction hb hs ha) (by simp)

/-- Witness for C2: on the concrete submitted (not seller-accepted) bid
`B9`, admin approval fails and changes nothing. -/
theorem admin_status_precondition_witness :
    findBid cDb9 "B9" = some cBid9 ∧ cBid9.status ≠ "SELLER_ACCEPTED" ∧
    setBidAdminStatus cDb9 "TXW" "DW" "B9" true =
      (.error "Bid must be seller accepted first", cDb9) :=
  ⟨rfl, by decide,
    admin_status_precondition.1 cDb9 "TXW" "DW" "B9" true cBid9 rfl (by decide)⟩

/-- Counterexample to C5 as stated: on the zero-part `FINISHED` box `B5`
(status not `WIP`), `finalizeBox` fails with the empty-box error, not
the claimed invalid-state error, because the source checks the part
count before the status. -/
theorem finalizeBox_empty_not_wip_error :
    cBox5.status ≠ "WIP" ∧
    finalizeBox cDb5 "B5" = (.error "Add at least one part before finalising", cDb5) ∧
    "Add at least one part before finalising" ≠ "Box already finalised or in auction" :=
  ⟨by decide, rfl, by decide⟩

/-- Claim C5 (amended): `finalizeBox` succeeds on a box with at least one
part and status `WIP`, setting it `FINISHED`; it never succeeds on a
zero-part box (failing with the empty-box error regardless of status);
on a box with at least one part whose status is not `WIP` it fails with
the invalid-state error and leaves the document unchanged; and a second
call right after a success fails that way, so it succeeds at most
once. -/
theorem finalizeBox_lifecycle (db : Db) (boxId : String) (bx : Box)
    (hb : findBox db boxId = some bx) :
    (bx.parts = [] →
        finalizeBox db boxId = (.error "Add at least one part before finalising", db)) ∧
    (bx.parts ≠ [] → bx.status = "WIP" →
        finalizeBox db boxId =
          (.ok { bx with status := "FINISHED" },
           { db with
               boxes := updateFirstBy (fun b => b.id == boxId)
                 (fun _ => { bx with status := "FINISHED" }) db.boxes })) ∧
    (bx.parts ≠ [] → bx.status ≠ "WIP" →
        finalizeBox db boxId = (.error "Box already finalised or in auction", db)) ∧
    (bx.parts ≠ [] → bx.status = "WIP" →
        finalizeBox (finalizeBox db boxId).2 boxId =
          (.error "Box already finalised or in auction", (finalizeBox db boxId).2)) := by
  have hid : bx.id = boxId := findBox_id db boxId bx hb
  refine ⟨fun h0 => by simp [finalizeBox, hb, h0], ?_, ?_, ?_⟩
  · intro hne hw
    simp [finalizeBox, hb, hw, List.length_eq_zero, hne]
  · intro hne hnw
    simp [finalizeBox, hb, List.length_eq_zero, hne, hnw]
  · intro hne hw
    have hsucc : finalizeBox db boxId =
        (.ok { bx with status := "FINISHED" },
         { db with
             boxes := updateFirstBy (fun b => b.id == boxId)
               (fun _ => { bx with status := "FINISHED" }) db.boxes }) := by
      simp [finalizeBox, hb, hw, List.length_eq_zero, hne]
    rw [hsucc]
    have hlook : findBox
        { db with
            boxes := updateFirstBy (fun b => b.id == boxId)
              (fun _ => { bx with status := "FINISHED" }) db.boxes } boxId =
        some { bx with status := "FINISHED" } :=
      find?_updateFirstBy_self _ _ _ bx hb (by simp [hid])
    simp [finalizeBox, hlook, List.length_eq_zero, hne]

/-- Witness for the amended C5: the one-part `WIP` box `W5` finalizes
successfully. -/
theorem finalizeBox_lifecycle_witness :
    findBox wDb5 "W5" = some wBox5 ∧ wBox5.parts ≠ [] ∧ wBox5.status = "WIP" ∧
    finalizeBox wDb5 "W5" =
      (.ok { wBox5 with status := "FINISHED" },
       { wDb5 with
           boxes := updateFirstBy (fun b => b.id == "W5")
             (fun _ => { wBox5 with status := "FINISHED" }) wDb5.boxes }) :=
  ⟨rfl, by decide, rfl, (finalizeBox_lifecycle wDb5 "W5" wBox5 rfl).2.1 (by decide) rfl⟩

/-- Counterexample to C6 as stated: box `B6` is locked to material
`Copper #1` and is `WIP`; the submitted part's empty name differs
case-insensitively from that material, yet `addPart` succeeds and
appends the part, because the source skips the check for a falsy
(empty) part name. -/
theorem addPart_empty_name_bypass :
    cBox6.material ≠ "" ∧ cBox6.status = "WIP" ∧
    lowerStr cPd6.name ≠ lowerStr cBox6.material ∧
    resOk (addPart cDb6 "B6" "P6" cPd6).1 = true ∧
    (findBox (addPart cDb6 "B6" "P6" cPd6).2 "B6").map (fun b => b.parts.length) = some 1 :=
  ⟨by decide, rfl, by decide, rfl, rfl⟩

/-- Claim C6 (amended): for every box with a set (non-empty) material and
status `WIP` or `FINISHED`, and every submitted part with a non-empty
name, `addPart` fails with the material-mismatch error and leaves the
document (hence the box's part list and material) unchanged whenever the
part's name differs case-insensitively from the box's material. -/
theorem addPart_material_mismatch (db : Db) (boxId partId : String) (pd : PartData) (bx : Box)
    (hb : findBox db boxId = some bx) (hm : bx.material ≠ "")
    (hst : bx.status = "WIP" ∨ bx.status = "FINISHED")
    (hn : pd.name ≠ "") (hne : lowerStr pd.name ≠ lowerStr bx.material) :
    addPart db boxId partId pd =
      (.error ("Box is locked to material \"" ++ bx.material ++ "\""), db) := by
  have hc1 : ¬(bx.status ≠ "WIP" ∧ bx.status ≠ "FINISHED") := by
    rcases hst with h | h <;> simp [h]
  simp [addPart, hb, hc1, hm, hn, hne]

/-- Witness for the amended C6: a part named `Stainless` is rejected by
the `Copper #1` box. -/
theorem addPart_material_mismatch_witness :
    findBox cDb6 "B6" = some cBox6 ∧ cBox6.material ≠ "" ∧ cBox6.status = "WIP" ∧
    wPd6.name ≠ "" ∧ lowerStr wPd6.name ≠ lowerStr cBox6.material ∧
    addPart cDb6 "B6" "P7" wPd6 =
      (.error ("Box is locked to material \"" ++ cBox6.material ++ "\""), cDb6) :=
  ⟨rfl, by decide, rfl, by decide, by decide,
    addPart_material_mismatch cDb6 "B6" "P7" wPd6 cBox6 rfl (by decide) (.inl rfl)
      (by decide) (by decide)⟩

/-- Counterexample to C9 as stated: after the seller has accepted `B9`
(seller-approved flag `true`), rejecting it sets status
`SELLER_REJECTED` but the flag stays `true`, not false — the source's
reject branch never writes the flag. -/
theorem seller_reject_keeps_flag :
    (findBid cDb9accepted "B9").map Bid.sellerApproved = some true ∧
    (setBidSellerStatus cDb9accepted "B9" false).1 =
      .ok { cBid9 with status := "SELLER_REJECTED", sellerApproved := true } ∧
    ({ cBid9 with status := "SELLER_REJECTED", sellerApproved := true }).sellerApproved ≠ false :=
  ⟨rfl, rfl, by decide⟩

/-- Claim C9 (amended): for every existing bid, `setBidSellerStatus(bid,
false)` sets the bid's status to `SELLER_REJECTED` and leaves the
seller-approved flag unchanged (so the flag is false only if the bid was
never previously accepted). -/
theorem seller_reject_rule (db : Db) (bidId : String) (bid : Bid)
    (hb : findBid db bidId = some bid) :
    setBidSellerStatus db bidId false =
      (.ok { bid with status := "SELLER_REJECTED" },
       { db with
           bids := updateFirstBy (fun b => b.id == bidId)
             (fun _ => { bid with status := "SELLER_REJECTED" }) db.bids }) ∧
    ({ bid with status := "SELLER_REJECTED" }).sellerApproved = bid.sellerApproved :=
  ⟨by simp [setBidSellerStatus, hb], rfl⟩

/-- Witness for the amended C9 on the freshly submitted bid `B9`. -/
theorem seller_reject_rule_witness :
    findBid cDb9 "B9" = some cBid9 ∧
    (setBidSellerStatus cDb9 "B9" false =
      (.ok { cBid9 with status := "SELLER_REJECTED" },
       { cDb9 with
           bids := updateFirstBy (fun b => b.id == "B9")
             (fun _ => { cBid9 with status := "SELLER_REJECTED" }) cDb9.bids }) ∧
     ({ cBid9 with status := "SELLER_REJECTED" }).sellerApproved = cBid9.sellerApproved) :=
  ⟨rfl, seller_reject_rule cDb9 "B9" cBid9 rfl⟩

/-- Counterexample to C10 as stated: supplying `net = 0` (a falsy JS
value) does not give the box net `0`; the source falls back to
`gross − tare = 90`. -/
theorem createBox_zero_net_ignored :
    cData10.net = some 0 ∧
    (createBox cDb10 "BX" "S1" cData10).1.net = 90 ∧ (90 : ℚ) ≠ 0 :=
  ⟨rfl, by norm_num [createBox, jsOrQ, truthyQ, jsSub, qOr, cData10], by norm_num⟩

/-- Claim C10 (amended): `createBox` always succeeds, creating the box in
status `WIP` with an empty part list and appending it to the document;
its net equals the supplied net whenever that is nonzero, and equals
`gross − tare` whenever the supplied net is absent or zero (the source
treats a supplied `0` like an absent value). -/
theorem createBox_net_rule (db : Db) (id sellerId : String) (data : BoxData) :
    (createBox db id sellerId data).1.status = "WIP" ∧
    (createBox db id sellerId data).1.parts = [] ∧
    (createBox db id sellerId data).2 =
      { db with boxes := db.boxes ++ [(createBox db id sellerId data).1] } ∧
    (∀ q : ℚ, data.net = some q → q ≠ 0 → (createBox db id sellerId data).1.net = q) ∧
    (∀ g t : ℚ, (data.net = none ∨ data.net = some 0) →
        data.gross = some g → data.tare = some t →
        (createBox db id sellerId data).1.net = g - t) := by
  refine ⟨rfl, rfl, rfl, ?_, ?_⟩
  · intro q hq hq0
    simp [createBox, jsOrQ, truthyQ, hq, hq0, qOr]
  · intro g t hn hg ht
    have hnet : (createBox db id sellerId data).1.net = qOr (some (g - t)) 0 := by
      rcases hn with hn | hn <;> simp [createBox, jsOrQ, truthyQ, hn, hg, ht, jsSub]
    rw [hnet, qOr]
    by_cases h0 : g - t = 0
    · simp [h0]
    · simp [h0]

/-- Witness for the amended C10: a supplied nonzero net of `42` is kept. -/
theorem createBox_net_rule_witness :
    wData10.net = some 42 ∧ (42 : ℚ) ≠ 0 ∧
    (createBox cDb10 "BXW" "S1" wData10).1.net = 42 :=
  ⟨rfl, by norm_num,
    (createBox_net_rule cDb10 "BXW" "S1" wData10).2.2.2.1 42 rfl (by norm_num)⟩

/-! Lemmas about `submitBid`. -/

theorem foldl_add_getD (l : List LineOffer) (a : ℚ) :
    l.foldl (fun s o => s + o.amount.getD 0) a =
      a + (l.map (fun o => o.amount.getD 0)).sum := by
  induction l generalizing a with
  | nil => simp
  | cons o r ih =>
    simp [List.foldl, ih]
    ring

theorem lineOffers_total_eq_sum (offers : List (String × JsVal)) :
    (offers.map (fun o => ({ partId := o.1, amount := offerAmount o.2 } : LineOffer))).foldl
        (fun s o => s + o.amount.getD 0) 0 =
      (offers.map (fun o => (offerAmount o.2).getD 0)).sum := by
  rw [foldl_add_getD, zero_add, List.map_map]
  rfl

theorem offerAmount_abc : offerAmount (.str "abc") = none := by decide

theorem offerAmount_ten : offerAmount (.num 10) = some 10 := rfl

theorem cOffers7_sum : (cOffers7.map (fun o => (offerAmount o.2).getD 0)).sum = 10 := by
  norm_num [cOffers7, offerAmount_ten, offerAmount_abc]

theorem cOffers7_pos : (0 : ℚ) < (cOffers7.map (fun o => (offerAmount o.2).getD 0)).sum := by
  rw [cOffers7_sum]
  norm_num

theorem cOffers7_foldl_pos :
    ¬((cOffers7.map (fun o => ({ partId := o.1, amount := offerAmount o.2 } : LineOffer))).foldl
        (fun s o => s + o.amount.getD 0) 0 ≤ 0) := by
  rw [lineOffers_total_eq_sum, cOffers7_sum]
  norm_num

theorem submitBid_no_auction (db : Db) (id buyerId auctionId : String)
    (offers : List (String × JsVal)) (ha : findAuction db auctionId = none) :
    submitBid db id buyerId auctionId offers = (.error "Auction not found", db) := by
  simp [submitBid, ha]

theorem submitBid_empty_eq (db : Db) (id buyerId auctionId : String)
    (offers : List (String × JsVal)) (auction : Auction)
    (ha : findAuction db auctionId = some auction)
    (hle : (offers.map (fun o => ({ partId := o.1, amount := offerAmount o.2 } : LineOffer))).foldl
        (fun s o => s + o.amount.getD 0) 0 ≤ 0) :
    submitBid db id buyerId auctionId offers = (.error "Enter at least one offer amount", db) := by
  simp [submitBid, ha, hle]

theorem submitBid_ok_eq (db : Db) (id buyerId auctionId : String)
    (offers : List (String × JsVal)) (auction : Auction)
    (ha : findAuction db auctionId = some auction)
    (hgt : ¬((offers.map (fun o => ({ partId := o.1, amount := offerAmount o.2 } : LineOffer))).foldl
        (fun s o => s + o.amount.getD 0) 0 ≤ 0)) :
    submitBid db id buyerId auctionId offers =
      (.ok
        { id := id, auctionId := auctionId, buyerId := buyerId,
          lineOffers := offers.map (fun o => ({ partId := o.1, amount := offerAmount o.2 } : LineOffer)),
          total := (offers.map (fun o => ({ partId := o.1, amount := offerAmount o.2 } : LineOffer))).foldl
            (fun s o => s + o.amount.getD 0) 0,
          status := "SUBMITTED", sellerApproved := false, adminApproved := false },
       { db with
           bids := db.bids ++
             [{ id := id, auctionId := auctionId, buyerId := buyerId,
                lineOffers := offers.map (fun o => ({ partId := o.1, amount := offerAmount o.2 } : LineOffer)),
                total := (offers.map (fun o => ({ partId := o.1, amount := offerAmount o.2 } : LineOffer))).foldl
                  (fun s o => s + o.amount.getD 0) 0,
                status := "SUBMITTED", sellerApproved := false, adminApproved := false }],
           auctions := updateFirstBy (fun a => a.id == auctionId)
             (fun a => { a with bids := a.bids ++ [id] }) db.auctions }) := by
  simp [submitBid, ha, hgt]

/-- Claim C7: for every existing auction, `submitBid` builds one line
offer per entry of the offers map, totals them treating a non-numeric
(`NaN`) amount as zero, fails with the empty-bid error exactly when that
total is `≤ 0` (leaving the document unchanged), and otherwise creates
the bid in status `SUBMITTED` with both approval flags false, appends it
to the bid collection and appends its id to the auction's bid list. -/
theorem submitBid_spec (db : Db) (id buyerId auctionId : String)
    (offers : List (String × JsVal)) (auction : Auction)
    (ha : findAuction db auctionId = some auction) :
    ((offers.map (fun o => (offerAmount o.2).getD 0)).sum ≤ 0 →
      submitBid db id buyerId auctionId offers =
        (.error "Enter at least one offer amount", db)) ∧
    (0 < (offers.map (fun o => (offerAmount o.2).getD 0)).sum →
      submitBid db id buyerId auctionId offers =
        (.ok
          { id := id, auctionId := auctionId, buyerId := buyerId,
            lineOffers := offers.map (fun o => ({ partId := o.1, amount := offerAmount o.2 } : LineOffer)),
            total := (offers.map (fun o => (offerAmount o.2).getD 0)).sum,
            status := "SUBMITTED", sellerApproved := false, adminApproved := false },
         { db with
             bids := db.bids ++
               [{ id := id, auctionId := auctionId, buyerId := buyerId,
                  lineOffers := offers.map (fun o => ({ partId := o.1, amount := offerAmount o.2 } : LineOffer)),
                  total := (offers.map (fun o => (offerAmount o.2).getD 0)).sum,
                  status := "SUBMITTED", sellerApproved := false, adminApproved := false }],
             auctions := updateFirstBy (fun a => a.id == auctionId)
               (fun a => { a with bids := a.bids ++ [id] }) db.auctions }) ∧
      findAuction (submitBid db id buyerId auctionId offers).2 auctionId =
        some { auction with bids := auction.bids ++ [id] }) := by
  constructor
  · intro hle
    exact submitBid_empty_eq db id buyerId auctionId offers auction ha
      (by rw [lineOffers_total_eq_sum]; exact hle)
  · intro hgt
    have hnle : ¬((offers.map (fun o => ({ partId := o.1, amount := offerAmount o.2 } : LineOffer))).foldl
        (fun s o => s + o.amount.getD 0) 0 ≤ 0) := by
      rw [lineOffers_total_eq_sum]
      exact not_le.mpr hgt
    have hres := submitBid_ok_eq db id buyerId auctionId offers auction ha hnle
    rw [lineOffers_total_eq_sum] at hres
    refine ⟨hres, ?_⟩
    rw [hres]
    exact find?_updateFirstBy_self _ _ _ auction ha
      (by simp [findAuction_id db auctionId auction ha])

/-- Witness for C7 on the spec's own example `{P1: 10, P2: "abc"}`. -/
theorem submitBid_spec_witness :
    findAuction cDb7 "A7" = some cAuc7 ∧
    (0 : ℚ) < (cOffers7.map (fun o => (offerAmount o.2).getD 0)).sum ∧
    findAuction (submitBid cDb7 "B8" "U8" "A7" cOffers7).2 "A7" =
      some { cAuc7 with bids := cAuc7.bids ++ ["B8"] } :=
  ⟨rfl, cOffers7_pos,
    ((submitBid_spec cDb7 "B8" "U8" "A7" cOffers7 cAuc7 rfl).2 cOffers7_pos).2⟩

/-- Counterexample to C8 as stated: for the offers `{P1: 10, P2: "abc"}`
the stored bid has total `10`, but the `"abc"` line item is stored with
amount `NaN`, so the sum of the stored amount fields is `NaN`, not the
stored total. -/
theorem bid_total_ne_stored_sum :
    (submitBid cDb7 "B8" "U8" "A7" cOffers7).1 = .ok cBid8 ∧
    nanSum (cBid8.lineOffers.map LineOffer.amount) = none ∧
    some cBid8.total ≠ nanSum (cBid8.lineOffers.map LineOffer.amount) := by
  refine ⟨?_, rfl, by decide⟩
  rw [submitBid_ok_eq cDb7 "B8" "U8" "A7" cOffers7 cAuc7 rfl cOffers7_foldl_pos]
  have htot : (cOffers7.map (fun o => ({ partId := o.1, amount := offerAmount o.2 } : LineOffer))).foldl
      (fun s o => s + o.amount.getD 0) 0 = 10 := by
    rw [lineOffers_total_eq_sum, cOffers7_sum]
  simp [cBid8, cOffers7, offerAmount_ten, offerAmount_abc, htot]

/-- Claim C8 (amended): for every bid created by a successful
`submitBid`, the stored total equals the sum of the stored line-item
amounts with each `NaN` amount counted as zero (the plain JS sum of the
stored amounts is `NaN`, not the total, whenever some offer was
non-numeric — see the counterexample). -/
theorem bid_total_eq_zeroed_sum (db : Db) (id buyerId auctionId : String)
    (offers : List (String × JsVal)) (bid : Bid) (db2 : Db)
    (h : submitBid db id buyerId auctionId offers = (.ok bid, db2)) :
    bid.total = (bid.lineOffers.map (fun o => o.amount.getD 0)).sum := by
  cases hfa : findAuction db auctionId with
  | none =>
    rw [submitBid_no_auction db id buyerId auctionId offers hfa] at h
    simp at h
  | some auction =>
    by_cases hle : (offers.map (fun o => ({ partId := o.1, amount := offerAmount o.2 } : LineOffer))).foldl
        (fun s o => s + o.amount.getD 0) 0 ≤ 0
    · rw [submitBid_empty_eq db id buyerId auctionId offers auction hfa hle] at h
      simp at h
    · rw [submitBid_ok_eq db id buyerId auctionId offers auction hfa hle] at h
      simp only [Prod.mk.injEq, Except.ok.injEq] at h
      rw [← h.1]
      show (offers.map (fun o => ({ partId := o.1, amount := offerAmount o.2 } : LineOffer))).foldl
          (fun s o => s + o.amount.getD 0) 0 =
        ((offers.map (fun o => ({ partId := o.1, amount := offerAmount o.2 } : LineOffer))).map
          (fun o => o.amount.getD 0)).sum
      rw [foldl_add_getD, zero_add]

/-- Witness for the amended C8 on the concrete submission of
`{P1: 10, P2: "abc"}`. -/
theorem bid_total_eq_zeroed_sum_witness :
    (∃ db2 : Db, submitBid cDb7 "B8" "U8" "A7" cOffers7 = (.ok cBid8, db2)) ∧
    cBid8.total = (cBid8.lineOffers.map (fun o => o.amount.getD 0)).sum := by
  have hres := submitBid_ok_eq cDb7 "B8" "U8" "A7" cOffers7 cAuc7 rfl cOffers7_foldl_pos
  have htot : (cOffers7.map (fun o => ({ partId := o.1, amount := offerAmount o.2 } : LineOffer))).foldl
      (fun s o => s + o.amount.getD 0) 0 = 10 := by
    rw [lineOffers_total_eq_sum, cOffers7_sum]
  have hok : submitBid cDb7 "B8" "U8" "A7" cOffers7 =
      (.ok cBid8, (submitBid cDb7 "B8" "U8" "A7" cOffers7).2) := by
    rw [hres]
    simp [cBid8, cOffers7, offerAmount_ten, offerAmount_abc, htot]
  exact ⟨⟨(submitBid cDb7 "B8" "U8" "A7" cOffers7).2, hok⟩,
    bid_total_eq_zeroed_sum cDb7 "B8" "U8" "A7" cOffers7 cBid8 _ hok⟩

/-! Lemmas about `createAuction`. -/

theorem validateBoxes_none_iff (db : Db) (l : List String) :
    validateBoxes db l = none ↔
      ∀ bxId ∈ l, ∃ bx, findBox db bxId = some bx ∧ bx.status = "FINISHED" := by
  induction l with
  | nil => simp [validateBoxes]
  | cons y r ih =>
    cases hfy : findBox db y with
    | none => simp [validateBoxes, hfy]
    | some bx =>
      by_cases hst : bx.status = "FINISHED"
      · simp [validateBoxes, hfy, hst, ih]
      · simp [validateBoxes, hfy, hst]

theorem createAuction_ok_eq (db : Db) (id sellerId : String) (data : AuctionData)
    (hv : validateBoxes db data.boxIds = none) :
    createAuction db id sellerId data =
      (.ok
        { id := id, sellerId := sellerId,
          title := strOr data.title ("Auction " ++ String.mk (id.data.drop (id.data.length - 5))),
          shipping := data.shipping.getD [],
          forkliftOnSite := data.forkliftOnSite,
          paymentTerms := data.paymentTerms.getD [],
          boxIds := data.boxIds, status := "IN_AUCTION", bids := [] },
       { db with
           auctions := db.auctions ++
             [{ id := id, sellerId := sellerId,
                title := strOr data.title ("Auction " ++ String.mk (id.data.drop (id.data.length - 5))),
                shipping := data.shipping.getD [],
                forkliftOnSite := data.forkliftOnSite,
                paymentTerms := data.paymentTerms.getD [],
                boxIds := data.boxIds, status := "IN_AUCTION", bids := [] }],
           boxes := data.boxIds.foldl
             (fun bs bx => setBoxStatusList bs bx "IN_AUCTION") db.boxes }) := by
  simp [createAuction, hv, foldl_setBoxStatus_eq]

/-- Claim C4: `createAuction` is all-or-nothing: if some listed id does
not resolve or resolves to a non-`FINISHED` box, it returns an error and
the document (so every box and the auction collection) is unchanged;
otherwise the auction is created in status `IN_AUCTION` with exactly the
listed box ids in order, and every listed box's status becomes
`IN_AUCTION`. -/
theorem createAuction_all_or_nothing :
    (∀ (db : Db) (id sellerId : String) (data : AuctionData) (bxId : String),
        bxId ∈ data.boxIds →
        (findBox db bxId = none ∨ ∃ bx, findBox db bxId = some bx ∧ bx.status ≠ "FINISHED") →
        ∃ e, createAuction db id sellerId data = (.error e, db)) ∧
    (∀ (db : Db) (id sellerId : String) (data : AuctionData),
        (∀ bxId ∈ data.boxIds, ∃ bx, findBox db bxId = some bx ∧ bx.status = "FINISHED") →
        ∃ auction : Auction,
          (createAuction db id sellerId data).1 = .ok auction ∧
          auction.status = "IN_AUCTION" ∧
          auction.boxIds = data.boxIds ∧
          (createAuction db id sellerId data).2.auctions = db.auctions ++ [auction] ∧
          ∀ bxId ∈ data.boxIds, ∀ bx,
            findBox (createAuction db id sellerId data).2 bxId = some bx →
            bx.status = "IN_AUCTION") := by
  constructor
  · intro db id sellerId data bxId hmem hbad
    have hne : validateBoxes db data.boxIds ≠ none := by
      rw [Ne, validateBoxes_none_iff]
      intro hall
      obtain ⟨bx, hbx, hst⟩ := hall bxId hmem
      rcases hbad with hnone | ⟨bx2, hbx2, hst2⟩
      · rw [hnone] at hbx
        exact Option.noConfusion hbx
      · rw [hbx2] at hbx
        injection hbx with he
        exact hst2 (he ▸ hst)
    cases hv : validateBoxes db data.boxIds with
    | none => exact absurd hv hne
    | some e => exact ⟨e, by simp [createAuction, hv]⟩
  · intro db id sellerId data hall
    have hv : validateBoxes db data.boxIds = none :=
      (validateBoxes_none_iff db data.boxIds).mpr hall
    have hres := createAuction_ok_eq db id sellerId data hv
    refine ⟨_, by rw [hres], rfl, rfl, by rw [hres], ?_⟩
    intro bxId hmem bx hbx
    rw [hres] at hbx
    exact statusAt_foldl_mem data.boxIds bxId "IN_AUCTION" db.boxes hmem bx hbx

/-- Witness for C4: two `FINISHED` boxes `{B1, B2}` go to auction
together and both flip to `IN_AUCTION`. -/
theorem createAuction_all_or_nothing_witness :
    (∀ bxId ∈ wData4.boxIds, ∃ bx, findBox wDb4 bxId = some bx ∧ bx.status = "FINISHED") ∧
    ∃ auction : Auction,
      (createAuction wDb4 "AUC-1" "S1" wData4).1 = .ok auction ∧
      auction.status = "IN_AUCTION" ∧
      auction.boxIds = wData4.boxIds ∧
      (createAuction wDb4 "AUC-1" "S1" wData4).2.auctions = wDb4.auctions ++ [auction] ∧
      ∀ bxId ∈ wData4.boxIds, ∀ bx,
        findBox (createAuction wDb4 "AUC-1" "S1" wData4).2 bxId = some bx →
        bx.status = "IN_AUCTION" := by
  have hall : ∀ bxId ∈ wData4.boxIds,
      ∃ bx, findBox wDb4 bxId = some bx ∧ bx.status = "FINISHED" := by
    intro bxId hmem
    fin_cases hmem
    · exact ⟨wBox4a, rfl, rfl⟩
    · exact ⟨wBox4b, rfl, rfl⟩
  exact ⟨hall, createAuction_all_or_nothing.2 wDb4 "AUC-1" "S1" wData4 hall⟩

/-! Lemmas for the ledger-uniqueness analysis (C3): which operations can
make a bid `SELLER_ACCEPTED` again. -/

theorem createUser_bids (db : Db) (id u p n r pa : String) :
    (createUser db id u p n r pa).2.bids = db.bids := by
  unfold createUser
  split
  · rfl
  · rfl

theorem createBox_bids (db : Db) (id s : String) (d : BoxData) :
    (createBox db id s d).2.bids = db.bids := rfl

theorem addPart_bids (db : Db) (b p : String) (d : PartData) :
    (addPart db b p d).2.bids = db.bids := by
  unfold addPart
  split
  · rfl
  · split
    · rfl
    · split
      · rfl
      · rfl

theorem finalizeBox_bids (db : Db) (b : String) :
    (finalizeBox db b).2.bids = db.bids := by
  unfold finalizeBox
  split
  · rfl
  · split
    · rfl
    · split
      · rfl
      · rfl

theorem createAuction_bids (db : Db) (id s : String) (d : AuctionData) :
    (createAuction db id s d).2.bids = db.bids := by
  unfold createAuction
  split
  · rfl
  · simp [foldl_setBoxStatus_eq]

theorem bidNotSAList_append (bids : List Bid) (nb : Bid) (bid0 : String)
    (h : bidNotSAList bids bid0 = true) (hnb : nb.status ≠ "SELLER_ACCEPTED") :
    bidNotSAList (bids ++ [nb]) bid0 = true := by
  rw [bidNotSAList, List.all_append, Bool.and_eq_true]
  exact ⟨h, by simp [hnb]⟩

theorem notSA_of_find (db : Db) (bid0 : String) (h : bidNotSA db bid0 = true)
    (bid : Bid) (hf : findBid db bid0 = some bid) : bid.status ≠ "SELLER_ACCEPTED" := by
  have hmem : bid ∈ db.bids := List.mem_of_find?_eq_some hf
  have hid : bid.id = bid0 := findBid_id db bid0 bid hf
  have hq := List.all_eq_true.mp h bid hmem
  simp only [Bool.not_eq_true', Bool.and_eq_false_iff, beq_eq_false_iff_ne] at hq
  intro hs
  rcases hq with hq | hq
  · exact hq hid
  · exact hq hs

theorem adminStatus_noop (db : Db) (tx dt bid0 : String) (ap : Bool)
    (h : bidNotSA db bid0 = true) :
    (setBidAdminStatus db tx dt bid0 ap).2 = db := by
  cases hf : findBid db bid0 with
  | none => simp [setBidAdminStatus, hf]
  | some bid =>
    rw [notSA_admin_error db tx dt bid0 ap bid hf (notSA_of_find db bid0 h bid hf)]

theorem bidNotSA_step (db : Db) (op : Op) (bid0 : String)
    (hop : reaccepts op bid0 = false) (h : bidNotSA db bid0 = true) :
    bidNotSA (step db op) bid0 = true := by
  cases op with
  | user id u p n r pa =>
    show bidNotSAList (createUser db id u p n r pa).2.bids bid0 = true
    rw [createUser_bids]
    exact h
  | box id s d =>
    show bidNotSAList (createBox db id s d).2.bids bid0 = true
    rw [createBox_bids]
    exact h
  | part b p d =>
    show bidNotSAList (addPart db b p d).2.bids bid0 = true
    rw [addPart_bids]
    exact h
  | finalize b =>
    show bidNotSAList (finalizeBox db b).2.bids bid0 = true
    rw [finalizeBox_bids]
    exact h
  | auction id s d =>
    show bidNotSAList (createAuction db id s d).2.bids bid0 = true
    rw [createAuction_bids]
    exact h
  | bid id b a o =>
    cases hfa : findAuction db a with
    | none =>
      show bidNotSA (submitBid db id b a o).2 bid0 = true
      rw [submitBid_no_auction db id b a o hfa]
      exact h
    | some auction =>
      by_cases hle : (o.map (fun e => ({ partId := e.1, amount := offerAmount e.2 } : LineOffer))).foldl
          (fun s e => s + e.amount.getD 0) 0 ≤ 0
      · show bidNotSA (submitBid db id b a o).2 bid0 = true
        rw [submitBid_empty_eq db id b a o auction hfa hle]
        exact h
      · show bidNotSA (submitBid db id b a o).2 bid0 = true
        rw [submitBid_ok_eq db id b a o auction hfa hle]
        exact bidNotSAList_append db.bids _ bid0 h (by simp)
  | sellerStatus b ap =>
    simp only [reaccepts] at hop
    cases hf : findBid db b with
    | none =>
      simp only [step, setBidSellerStatus, hf]
      exact h
    | some bid =>
      have hid : bid.id = b := findBid_id db b bid hf
      simp only [step, setBidSellerStatus, hf]
      refine all_updateFirstBy _ _ _ _ h ?_
      intro x hpx hqx
      cases ap with
      | true =>
        have hbb : (b == bid0) = false := by
          cases hb0 : (b == bid0) with
          | true => rw [hb0] at hop; simp at hop
          | false => rfl
        simp [hid, hbb]
      | false => simp
  | adminStatus t dt b ap =>
    cases hf : findBid db b with
    | none =>
      simp only [step, setBidAdminStatus, hf]
      exact h
    | some bid =>
      by_cases hs : bid.status = "SELLER_ACCEPTED"
      · cases hfa : findAuction db bid.auctionId with
        | none =>
          simp only [step, setBidAdminStatus, hf, hfa]
          rw [if_neg (by simp [hs])]
          exact h
        | some auction =>
          cases ap with
          | true =>
            have hres := setBidAdminStatus_approve_eq db t dt b bid auction hf hs hfa
            simp only [step, hres]
            exact all_updateFirstBy _ _ _ _ h (fun x _ _ => by simp)
          | false =>
            simp only [step, setBidAdminStatus, hf, hfa]
            rw [if_neg (by simp [hs])]
            simp only [Bool.false_eq_true, if_false]
            exact all_updateFirstBy _ _ _ _ h (fun x _ _ => by simp)
      · simp only [step, setBidAdminStatus, hf]
        rw [if_pos hs]
        exact h

theorem bidNotSA_run (db : Db) (ops : List Op) (bid0 : String)
    (h : bidNotSA db bid0 = true)
    (hops : ops.all (fun op => !(reaccepts op bid0)) = true) :
    bidNotSA (run db ops) bid0 = true := by
  induction ops generalizing db with
  | nil => exact h
  | cons op rest ih =>
    rw [List.all_cons, Bool.and_eq_true] at hops
    exact ih (step db op) (bidNotSA_step db op bid0 (by simpa using hops.1) h) hops.2

/-- Counterexample to C3 as stated: after bid `B1` is admin-approved and
its (single) ledger entry written, the seller re-accepts the approved
bid — `setBidSellerStatus` has no status precondition — and a second
admin approval then succeeds, appending a second ledger entry on behalf
of the same bid. -/
theorem second_ledger_entry_after_reaccept :
    (findBid cDb1approved "B1").map Bid.status = some "ADMIN_APPROVED" ∧
    cDb1approved.ledger.length = 1 ∧
    (findBid cDb1reaccepted "B1").map Bid.status = some "SELLER_ACCEPTED" ∧
    cDb1twice.ledger.length = 2 ∧
    cDb1twice.ledger.map LedgerEntry.auctionId = ["A1", "A1"] ∧
    cDb1twice.ledger.map LedgerEntry.buyerId = ["U1", "U1"] := by
  decide

/-- Claim C3 (amended): once a bid is no longer `SELLER_ACCEPTED` (in
particular once it is `ADMIN_APPROVED` and its ledger entry written), no
sequence of workflow operations that never calls
`setBidSellerStatus(thatBid, true)` can make it `SELLER_ACCEPTED` again,
and any further `setBidAdminStatus` call on it leaves the whole document
— in particular the ledger — unchanged.  A further
`setBidSellerStatus(bid, true)` does re-enable approval and a second
ledger entry (see the counterexample). -/
theorem single_ledger_without_reacceptance (db : Db) (ops : List Op)
    (bid0 txId date : String) (ap : Bool)
    (h : bidNotSA db bid0 = true)
    (hops : ops.all (fun op => !(reaccepts op bid0)) = true) :
    bidNotSA (run db ops) bid0 = true ∧
    (setBidAdminStatus (run db ops) txId date bid0 ap).2 = run db ops := by
  have h1 := bidNotSA_run db ops bid0 h hops
  exact ⟨h1, adminStatus_noop (run db ops) txId date bid0 ap h1⟩

/-- Witness for the amended C3: after the approval of `B1`, a rejection
and an (unrelated, failing) approval attempt leave the document with its
single ledger entry, and one more approval attempt is a no-op. -/
theorem single_ledger_without_reacceptance_witness :
    bidNotSA cDb1approved "B1" = true ∧
    ([Op.sellerStatus "B1" false, Op.adminStatus "TXB" "DB" "B1" true].all
      (fun op => !(reaccepts op "B1"))) = true ∧
    (setBidAdminStatus
        (run cDb1approved [Op.sellerStatus "B1" false, Op.adminStatus "TXB" "DB" "B1" true])
        "TXC" "DC" "B1" true).2 =
      run cDb1approved [Op.sellerStatus "B1" false, Op.adminStatus "TXB" "DB" "B1" true] :=
  ⟨by decide, by decide,
    (single_ledger_without_reacceptance cDb1approved
      [Op.sellerStatus "B1" false, Op.adminStatus "TXB" "DB" "B1" true]
      "B1" "TXC" "DC" true (by decide) (by decide)).2⟩

end Smash
